import Mathlib

/-!
# Museum Art Scanner: formal model

A shallow embedding of the Museum Art Scanner repository: the relational
schema (`schema.sql` plus `migration_add_verification.sql`), the
recognition-and-auto-cataloging pipeline described by the specification
(Geofence Validator, Vector Match Engine, Fallback Analysis Dispatcher,
Auto-Cataloging Coordinator, Scan Ledger), and the result-presentation
logic of the React Native frontend (`ScanScreen.tsx`, `ResultCard.tsx`,
`app/scan/index.tsx`).

Numeric columns are modelled with `ℚ` (SQL FLOAT) and `Int` (SQL INTEGER);
embeddings are lists of rationals.  The cosine-distance primitive and the
great-circle-distance primitive are external services in the architecture,
so they are passed as function parameters.
-/

namespace MuseumScanner

/-! ## Relational schema (from schema.sql and migration_add_verification.sql) -/

/-- A row of the `museums` table: id, name, location point, geofence radius
in meters (INTEGER). -/
structure MuseumRow where
  id : Nat
  name : String
  longitude : ℚ
  latitude : ℚ
  geofence_radius_meters : Int
deriving Repr, DecidableEq

/-- A row of the `artworks` table, including the columns added by
`migration_add_verification.sql` (`is_verified`, `source`,
`confidence_score`). `source` is a VARCHAR, guarded by a CHECK constraint. -/
structure ArtworkRow where
  id : Nat
  museum_id : Option Nat
  title : String
  artist : Option String
  description_json : String
  image_url : Option String
  embedding : List ℚ
  is_verified : Bool
  source : String
  confidence_score : Option ℚ
deriving Repr, DecidableEq

/-- A row of the `user_scans` table: the append-only scan ledger.
`artwork_id` is nullable (`not_art` outcome, or artwork later deleted). -/
structure UserScanRow where
  id : Nat
  user_id : String
  artwork_id : Option Nat
  image_url : Option String
deriving Repr, DecidableEq

/-- The database state: the three tables relevant to scanning. -/
structure DB where
  museums : List MuseumRow
  artworks : List ArtworkRow
  user_scans : List UserScanRow
deriving Repr, DecidableEq

/-- CHECK constraint `check_source_values`:
`source IN ('museum_api', 'ai_generated', 'admin', 'community')`. -/
def checkSourceValues (s : String) : Bool :=
  s = "museum_api" || s = "ai_generated" || s = "admin" || s = "community"

/-- CHECK constraint `check_confidence_range`:
`confidence_score IS NULL OR (confidence_score >= 0 AND confidence_score <= 1)`. -/
def checkConfidenceRange (c : Option ℚ) : Bool :=
  match c with
  | none => true
  | some x => decide (0 ≤ x) && decide (x ≤ 1)

/-- Foreign-key check for `artworks.museum_id REFERENCES museums(id)`. -/
def museumFkOk (db : DB) (mid : Option Nat) : Bool :=
  match mid with
  | none => true
  | some m => db.museums.any (fun r => r.id = m)

/-- INSERT into `artworks`: the store rejects a row violating
`check_source_values`, `check_confidence_range`, or the museum foreign key;
otherwise the row is appended. -/
def insertArtwork (db : DB) (a : ArtworkRow) : Except String DB :=
  if checkSourceValues a.source = false then
    Except.error "check_source_values"
  else if checkConfidenceRange a.confidence_score = false then
    Except.error "check_confidence_range"
  else if museumFkOk db a.museum_id = false then
    Except.error "artworks_museum_id_fkey"
  else
    Except.ok { db with artworks := db.artworks ++ [a] }

/-- Column DEFAULTs from the migration: `is_verified BOOLEAN DEFAULT false`,
`source VARCHAR(50) DEFAULT 'ai_generated'`.  An INSERT that omits these
columns receives the defaults. -/
def applyColumnDefaults (iv : Option Bool) (src : Option String) : Bool × String :=
  (iv.getD false, src.getD "ai_generated")

/-- DELETE from `artworks`: referencing `user_scans` rows get
`artwork_id = NULL` (`ON DELETE SET NULL`), and are themselves kept. -/
def deleteArtwork (db : DB) (aid : Nat) : DB :=
  { db with
    artworks := db.artworks.filter (fun a => a.id ≠ aid)
    user_scans := db.user_scans.map (fun s =>
      if s.artwork_id = some aid then { s with artwork_id := none } else s) }

/-- DELETE from `museums`: artworks of that museum are deleted
(`ON DELETE CASCADE`); scans of those artworks get `artwork_id = NULL`
(the chained `ON DELETE SET NULL` of `user_scans.artwork_id`). -/
def deleteMuseum (db : DB) (mid : Nat) : DB :=
  { db with
    museums := db.museums.filter (fun m => m.id ≠ mid)
    artworks := db.artworks.filter (fun a => a.museum_id ≠ some mid)
    user_scans := db.user_scans.map (fun s =>
      match s.artwork_id with
      | none => s
      | some i =>
        if (db.artworks.filter (fun a => a.museum_id = some mid)).any
            (fun a => a.id = i) then
          { s with artwork_id := none }
        else s) }

/-- INSERT into `user_scans`: the Scan Ledger appends one row per completed
scan; `aid = none` records the `not_art` outcome. -/
def recordScan (db : DB) (scanId : Nat) (userId : String) (aid : Option Nat) : DB :=
  { db with user_scans := db.user_scans ++
      [{ id := scanId, user_id := userId, artwork_id := aid, image_url := none }] }

/-! ## Vector Match Engine

Modelled from the spec: the backend service code (FastAPI `main.py`,
`app/utils/vision.py`) is not part of the checked sources — only its README
and the schema are — so the Match Engine, Dispatcher, Coordinator and scan
pipeline below are modelled from the specification's component contracts
(§4.2–§4.6).  The cosine-distance computation belongs to the external
similarity-index primitive and is passed as the parameter `dist`. -/

/-- The fixed cosine-distance acceptance threshold: 0.15. -/
def threshold : ℚ := 15 / 100

/-- A match candidate: the artwork together with its cosine distance to the
query embedding. -/
structure Candidate where
  artwork : ArtworkRow
  distance : ℚ
deriving Repr, DecidableEq

/-- Whether a source tier counts as verified for the tie-break
(museum_api/admin preferred over ai_generated/community on exact ties). -/
def verifiedSource (s : String) : Bool :=
  s = "museum_api" || s = "admin"

/-- Candidate ranking: smaller cosine distance wins; on an exact tie a
museum_api/admin source beats an ai_generated/community one. -/
def beats (c d : Candidate) : Bool :=
  decide (c.distance < d.distance) ||
    (decide (c.distance = d.distance) &&
      (verifiedSource c.artwork.source && !(verifiedSource d.artwork.source)))

/-- Whether an artwork is inside the museum scope: unaffiliated artworks
(`museum_id` NULL) are always searchable; a museum-owned artwork is
searchable only when its museum is in the geofence scope.  With an empty
scope this is exactly the unaffiliated/global pool. -/
def inScope (scope : List Nat) (a : ArtworkRow) : Bool :=
  match a.museum_id with
  | none => true
  | some m => scope.contains m

/-- The candidates of a query: in-scope artworks whose cosine distance to
the query embedding is strictly below the threshold. -/
def candidatesOf (dist : List ℚ → List ℚ → ℚ) (e : List ℚ) (scope : List Nat)
    (arts : List ArtworkRow) : List Candidate :=
  (arts.filter (inScope scope)).filterMap (fun a =>
    if dist e a.embedding < threshold then
      some { artwork := a, distance := dist e a.embedding }
    else none)

/-- Select the best-ranked candidate (`none` when there is no candidate). -/
def pickBest : List Candidate → Option Candidate
  | [] => none
  | c :: cs =>
    match pickBest cs with
    | none => some c
    | some b => if beats c b then some c else some b

/-- `match(embedding, museumScope)`: nearest in-scope neighbour under the
threshold, or `none` (NoMatch).  Read-only: it never mutates the store. -/
def matchEngine (dist : List ℚ → List ℚ → ℚ) (e : List ℚ) (scope : List Nat)
    (arts : List ArtworkRow) : Option Candidate :=
  pickBest (candidatesOf dist e scope arts)

/-! ## Geofence Validator

Modelled from the spec: `candidateMuseums(lat, lon)` keeps the museums whose
great-circle (haversine) distance from the user is at most the museum's
geofence radius.  The haversine computation itself is the external
geodesic primitive, passed as the parameter `gcDist`. -/

/-- The museum ids whose great-circle distance from `(lat, lon)` is at most
their geofence radius; an empty result is not an error. -/
def candidateMuseums (gcDist : ℚ → ℚ → MuseumRow → ℚ) (lat lon : ℚ)
    (museums : List MuseumRow) : List Nat :=
  (museums.filter (fun m =>
    decide (gcDist lat lon m ≤ (m.geofence_radius_meters : ℚ)))).map (fun m => m.id)

/-! ## Fallback Analysis Dispatcher and Auto-Cataloging Coordinator -/

/-- The generative analysis outcome: `analyze(imageBytes)` of the external
vision-language service. -/
structure Analysis where
  label : String
  description : String
  isArtwork : Bool
  confidence : ℚ
deriving Repr, DecidableEq

/-- The row the Auto-Cataloging Coordinator persists for a newly-seen
artwork: unverified, source `ai_generated`, the Dispatcher's confidence,
no museum affiliation. -/
def mkAutoRow (e : List ℚ) (ana : Analysis) (newId : Nat) : ArtworkRow :=
  { id := newId, museum_id := none, title := ana.label, artist := none,
    description_json := ana.description, image_url := none,
    embedding := e, is_verified := false, source := "ai_generated",
    confidence_score := some ana.confidence }

/-- `getOrCreate`: the Auto-Cataloging Coordinator.  Modelled from the spec:
the check-then-insert sequence runs under the Coordinator's mutual
exclusion, so it is a single atomic step on the store.  It re-runs the match
query (double-check) and only when that still reports NoMatch inserts a new
unverified `ai_generated` row through the store's constrained insert.
Returns the winning row and whether this call created it. -/
def getOrCreate (dist : List ℚ → List ℚ → ℚ) (db : DB) (e : List ℚ)
    (ana : Analysis) (scope : List Nat) (newId : Nat) :
    Except String (DB × ArtworkRow × Bool) :=
  match matchEngine dist e scope db.artworks with
  | some c => Except.ok (db, c.artwork, false)
  | none =>
    match insertArtwork db (mkAutoRow e ana newId) with
    | Except.error msg => Except.error msg
    | Except.ok db2 => Except.ok (db2, mkAutoRow e ana newId, true)

/-- The terminal status of a scan request. -/
inductive ScanStatus where
  | match_found
  | ai_analysis
  | not_art
deriving Repr, DecidableEq

/-- The outcome returned to the caller of `submitScan`. -/
structure ScanOutcome where
  status : ScanStatus
  artwork : Option ArtworkRow
  cataloged : Bool
deriving Repr, DecidableEq

/-- `submitScan`: the scan pipeline after embedding and geofencing.
Modelled from the spec: match first; on a hit only the ledger is written;
on NoMatch the Dispatcher's analysis (parameter `ana`) decides between the
`not_art` outcome (ledger row with a null artwork reference, nothing else)
and auto-cataloging via `getOrCreate`. -/
def submitScan (dist : List ℚ → List ℚ → ℚ) (db : DB) (e : List ℚ)
    (scope : List Nat) (ana : Analysis) (userId : String)
    (scanId newId : Nat) : Except String (DB × ScanOutcome) :=
  match matchEngine dist e scope db.artworks with
  | some c =>
    Except.ok (recordScan db scanId userId (some c.artwork.id),
      { status := ScanStatus.match_found, artwork := some c.artwork,
        cataloged := false })
  | none =>
    if ana.isArtwork then
      match getOrCreate dist db e ana scope newId with
      | Except.error msg => Except.error msg
      | Except.ok (db2, a, created) =>
        Except.ok (recordScan db2 scanId userId (some a.id),
          { status := ScanStatus.ai_analysis, artwork := some a,
            cataloged := created })
    else
      Except.ok (recordScan db scanId userId none,
        { status := ScanStatus.not_art, artwork := none, cataloged := false })

/-- Two concurrent first-time scan workers.  Modelled from the spec (§5):
both workers pass their initial match query and their analysis call against
the same initial store (both saw NoMatch — that is the racing schedule);
their check-then-insert critical sections then serialize, here with worker 1
first.  Returns the final store and each worker's (artwork, created) pair. -/
def raceFirstScans (dist : List ℚ → List ℚ → ℚ) (db : DB) (e1 e2 : List ℚ)
    (ana1 ana2 : Analysis) (scope : List Nat) (id1 id2 : Nat) :
    Except String (DB × (ArtworkRow × Bool) × (ArtworkRow × Bool)) :=
  match getOrCreate dist db e1 ana1 scope id1 with
  | Except.error msg => Except.error msg
  | Except.ok (db1, a1, c1) =>
    match getOrCreate dist db1 e2 ana2 scope id2 with
    | Except.error msg => Except.error msg
    | Except.ok (db2, a2, c2) => Except.ok (db2, (a1, c1), (a2, c2))

/-! ## Frontend result presentation

Transcribed from `frontend/src/components/ResultCard.tsx`,
`frontend/src/screens/ScanScreen.tsx` and `frontend/app/scan/index.tsx`.
The TypeScript `Artwork` interface marks `is_verified`, `source` and
`confidence_score` optional, hence the `Option` fields. -/

/-- The artwork payload as the frontend receives it (`interface Artwork`). -/
structure FrontArtwork where
  id : Nat
  title : String
  artist : String
  image_url : Option String
  is_verified : Option Bool
  source : Option String
  confidence_score : Option ℚ
deriving Repr, DecidableEq

/-- `ResultCard.tsx`: `const isVerified = artwork.is_verified ?? false` —
an absent flag is treated as unverified. -/
def resultCardIsVerified (a : FrontArtwork) : Bool :=
  a.is_verified.getD false

/-- The two trust badges `ResultCard.tsx` can render. -/
inductive TrustBadge where
  | officialMuseumData
  | aiAnalysisEstimate
deriving Repr, DecidableEq

/-- `ResultCard.tsx` badge choice: the Official Museum Data badge when
`isVerified`, the AI Analysis badge otherwise. -/
def resultCardBadge (a : FrontArtwork) : TrustBadge :=
  if resultCardIsVerified a then TrustBadge.officialMuseumData
  else TrustBadge.aiAnalysisEstimate

/-- `ResultCard.tsx`: the Report Issue button is rendered exactly under
`!isVerified && onReportIssue`. -/
def resultCardShowsReport (a : FrontArtwork) (hasHandler : Bool) : Bool :=
  !(resultCardIsVerified a) && hasHandler

/-- `app/scan/index.tsx`: the parent passes the report handler exactly when
`!result.artwork.is_verified` (an absent flag counts as unverified). -/
def scanScreenPassesHandler (a : FrontArtwork) : Bool :=
  !(a.is_verified.getD false)

/-- The scan statuses the frontend distinguishes (`ScanResult.status`). -/
inductive FrontStatus where
  | match_found
  | verified_result
  | community_result
  | ai_analysis
  | not_art
deriving Repr, DecidableEq

/-- `ScanScreen.tsx` verified branch: rendered for `verified_result`, or for
`match_found` with a truthy `artwork.is_verified`. -/
def scanScreenShowsVerifiedBadge (st : FrontStatus) (a : FrontArtwork) : Bool :=
  decide (st = FrontStatus.verified_result) ||
    (decide (st = FrontStatus.match_found) && a.is_verified.getD false)

/-- `ScanScreen.tsx` community/AI branch: rendered for `community_result`,
or for `match_found` with a falsy `artwork.is_verified`. -/
def scanScreenShowsCommunityBadge (st : FrontStatus) (a : FrontArtwork) : Bool :=
  decide (st = FrontStatus.community_result) ||
    (decide (st = FrontStatus.match_found) && !(a.is_verified.getD false))

/-! ## Application-level transition system

Modelled from the spec: artwork rows are created either by an administrator
(verified, source museum_api/admin) or by the Auto-Cataloging Coordinator
(unverified, ai_generated/community); they are mutated only by moderation
actions editing title/artist/description, or deleted by explicit admin
action.  The backend service code implementing these operations is not part
of the checked sources, so the reachable states are those generated by the
spec's operations over the schema-level primitives above. -/

/-- The moderation edit of one artwork row: `resolveIssue` may change the
target artwork's title/artist/description, nothing else. -/
def moderationEditRow (aid : Nat) (t : String) (ar : Option String)
    (d : String) (a : ArtworkRow) : ArtworkRow :=
  if a.id = aid then
    { a with title := t, artist := ar, description_json := d }
  else a

/-- One application-level step on the database. -/
inductive AppStep (dist : List ℚ → List ℚ → ℚ) : DB → DB → Prop where
  | adminCreate (db : DB) (row : ArtworkRow) (db2 : DB)
      (hsrc : row.source = "museum_api" ∨ row.source = "admin")
      (hins : insertArtwork db row = Except.ok db2) :
      AppStep dist db db2
  | unverifiedCreate (db : DB) (row : ArtworkRow) (db2 : DB)
      (hver : row.is_verified = false)
      (hins : insertArtwork db row = Except.ok db2) :
      AppStep dist db db2
  | coordinatorCreate (db : DB) (e : List ℚ) (ana : Analysis)
      (scope : List Nat) (newId : Nat) (db2 : DB) (a : ArtworkRow) (c : Bool)
      (h : getOrCreate dist db e ana scope newId = Except.ok (db2, a, c)) :
      AppStep dist db db2
  | scanRequest (db : DB) (e : List ℚ) (scope : List Nat) (ana : Analysis)
      (userId : String) (scanId newId : Nat) (db2 : DB) (out : ScanOutcome)
      (h : submitScan dist db e scope ana userId scanId newId =
        Except.ok (db2, out)) :
      AppStep dist db db2
  | scanLedger (db : DB) (scanId : Nat) (userId : String) (aid : Option Nat) :
      AppStep dist db (recordScan db scanId userId aid)
  | moderationEdit (db : DB) (aid : Nat) (t : String) (ar : Option String)
      (d : String) :
      AppStep dist db
        { db with artworks := db.artworks.map (moderationEditRow aid t ar d) }
  | moderationDelete (db : DB) (aid : Nat) :
      AppStep dist db (deleteArtwork db aid)
  | adminDeleteMuseum (db : DB) (mid : Nat) :
      AppStep dist db (deleteMuseum db mid)
  | adminCreateMuseum (db : DB) (m : MuseumRow) :
      AppStep dist db { db with museums := db.museums ++ [m] }

/-- The initial database: all three tables empty. -/
def dbInit : DB := { museums := [], artworks := [], user_scans := [] }

/-- The database states reachable from the empty database through
application-level steps. -/
def Reachable (dist : List ℚ → List ℚ → ℚ) (db : DB) : Prop :=
  Relation.ReflTransGen (AppStep dist) dbInit db

/-- The verification invariant: `is_verified` implies source
museum_api/admin, as a decidable predicate over the whole table. -/
def verifiedImpliesOfficial (db : DB) : Bool :=
  db.artworks.all (fun a => !a.is_verified || verifiedSource a.source)

/-- The confidence-range invariant over the whole table. -/
def confidenceInRange (db : DB) : Bool :=
  db.artworks.all (fun a => checkConfidenceRange a.confidence_score)

/-! ## Basic lemmas about the store primitives -/

theorem insertArtwork_ok_iff (db : DB) (a : ArtworkRow) (db2 : DB) :
    insertArtwork db a = Except.ok db2 ↔
      checkSourceValues a.source = true ∧
        checkConfidenceRange a.confidence_score = true ∧
        museumFkOk db a.museum_id = true ∧
        db2 = { db with artworks := db.artworks ++ [a] } := by
  unfold insertArtwork
  cases h1 : checkSourceValues a.source with
  | false => simp [h1]
  | true =>
    cases h2 : checkConfidenceRange a.confidence_score with
    | false => simp [h2]
    | true =>
      cases h3 : museumFkOk db a.museum_id with
      | false => simp [h3]
      | true =>
        simp
        exact eq_comm

theorem insertArtwork_fails_of_bad_source (db : DB) (a : ArtworkRow)
    (h : checkSourceValues a.source = false) :
    insertArtwork db a = Except.error "check_source_values" := by
  unfold insertArtwork
  simp [h]

theorem insertArtwork_fails_of_bad_confidence (db : DB) (a : ArtworkRow)
    (h : checkConfidenceRange a.confidence_score = false) :
    ∃ msg, insertArtwork db a = Except.error msg := by
  unfold insertArtwork
  by_cases h1 : checkSourceValues a.source = false
  · exact ⟨"check_source_values", by simp [h1]⟩
  · exact ⟨"check_confidence_range", by simp [h1, h]⟩

/-! ## Lemmas about the Vector Match Engine -/

theorem beats_le {c d : Candidate} (h : beats c d = true) :
    c.distance ≤ d.distance := by
  unfold beats at h
  rcases Bool.or_eq_true_iff.mp h with h1 | h2
  · exact le_of_lt (of_decide_eq_true h1)
  · exact le_of_eq (of_decide_eq_true (Bool.and_eq_true_iff.mp h2).1)

theorem not_beats_le {c d : Candidate} (h : beats c d = false) :
    d.distance ≤ c.distance := by
  unfold beats at h
  have h1 : decide (c.distance < d.distance) = false := by
    cases hx : decide (c.distance < d.distance) with
    | false => rfl
    | true => rw [hx] at h; simp at h
  exact le_of_not_lt (of_decide_eq_false h1)

theorem pickBest_eq_none_iff (l : List Candidate) :
    pickBest l = none ↔ l = [] := by
  cases l with
  | nil => simp [pickBest]
  | cons c cs =>
    simp only [pickBest]
    cases h : pickBest cs with
    | none => simp
    | some b =>
      by_cases hb : beats c b = true <;> simp [hb]

theorem pickBest_mem : ∀ {l : List Candidate} {c : Candidate},
    pickBest l = some c → c ∈ l := by
  intro l
  induction l with
  | nil => intro c h; simp [pickBest] at h
  | cons d ds ih =>
    intro c h
    simp only [pickBest] at h
    cases hds : pickBest ds with
    | none =>
      rw [hds] at h
      simp at h
      simp [h]
    | some b =>
      rw [hds] at h
      by_cases hb : beats d b = true
      · simp [hb] at h
        simp [h]
      · simp [hb] at h
        exact List.mem_cons_of_mem d (ih (hds.trans (congrArg some h)))

theorem pickBest_min : ∀ {l : List Candidate} {c : Candidate},
    pickBest l = some c → ∀ d ∈ l, c.distance ≤ d.distance := by
  intro l
  induction l with
  | nil => intro c h; simp [pickBest] at h
  | cons e es ih =>
    intro c h
    simp only [pickBest] at h
    cases hes : pickBest es with
    | none =>
      rw [hes] at h
      simp at h
      have hnil : es = [] := (pickBest_eq_none_iff es).mp hes
      subst hnil
      intro d hd
      simp at hd
      rw [hd, ← h]
    | some b =>
      rw [hes] at h
      by_cases hb : beats e b = true
      · simp [hb] at h
        intro d hd
        rcases List.mem_cons.mp hd with h1 | h2
        · rw [h1, ← h]
        · calc c.distance = e.distance := by rw [h]
            _ ≤ b.distance := beats_le hb
            _ ≤ d.distance := ih hes d h2
      · simp [hb] at h
        intro d hd
        rcases List.mem_cons.mp hd with h1 | h2
        · calc c.distance = b.distance := by rw [h]
            _ ≤ e.distance := not_beats_le (Bool.eq_false_iff.mpr hb)
            _ = d.distance := by rw [h1]
        · calc c.distance = b.distance := by rw [h]
            _ ≤ d.distance := ih hes d h2

theorem mem_candidatesOf {dist : List ℚ → List ℚ → ℚ} {e : List ℚ}
    {scope : List Nat} {arts : List ArtworkRow} {c : Candidate} :
    c ∈ candidatesOf dist e scope arts ↔
      c.artwork ∈ arts ∧ inScope scope c.artwork = true ∧
        dist e c.artwork.embedding < threshold ∧
        c.distance = dist e c.artwork.embedding := by
  unfold candidatesOf
  rw [List.mem_filterMap]
  constructor
  · rintro ⟨a, ha, hc⟩
    rw [List.mem_filter] at ha
    by_cases hd : dist e a.embedding < threshold
    · rw [if_pos hd] at hc
      cases hc
      exact ⟨ha.1, ha.2, hd, rfl⟩
    · rw [if_neg hd] at hc
      cases hc
  · rintro ⟨ha, hs, hd, hdist⟩
    refine ⟨c.artwork, List.mem_filter.mpr ⟨ha, hs⟩, ?_⟩
    rw [if_pos hd]
    cases c
    simp at hdist
    rw [hdist]

theorem candidatesOf_append (dist : List ℚ → List ℚ → ℚ) (e : List ℚ)
    (scope : List Nat) (l1 l2 : List ArtworkRow) :
    candidatesOf dist e scope (l1 ++ l2) =
      candidatesOf dist e scope l1 ++ candidatesOf dist e scope l2 := by
  unfold candidatesOf
  rw [List.filter_append, List.filterMap_append]

theorem matchEngine_none_iff (dist : List ℚ → List ℚ → ℚ) (e : List ℚ)
    (scope : List Nat) (arts : List ArtworkRow) :
    matchEngine dist e scope arts = none ↔
      ∀ a ∈ arts, inScope scope a = true →
        ¬(dist e a.embedding < threshold) := by
  unfold matchEngine
  rw [pickBest_eq_none_iff, List.eq_nil_iff_forall_not_mem]
  constructor
  · intro h a ha hs hd
    exact h { artwork := a, distance := dist e a.embedding }
      (mem_candidatesOf.mpr ⟨ha, hs, hd, rfl⟩)
  · intro h c hc
    obtain ⟨ha, hs, hd, _⟩ := mem_candidatesOf.mp hc
    exact h _ ha hs hd

theorem matchEngine_some_spec {dist : List ℚ → List ℚ → ℚ} {e : List ℚ}
    {scope : List Nat} {arts : List ArtworkRow} {c : Candidate}
    (h : matchEngine dist e scope arts = some c) :
    c.artwork ∈ arts ∧ inScope scope c.artwork = true ∧
      dist e c.artwork.embedding < threshold ∧
      c.distance = dist e c.artwork.embedding ∧
      ∀ a ∈ arts, inScope scope a = true → dist e a.embedding < threshold →
        c.distance ≤ dist e a.embedding := by
  obtain ⟨ha, hs, hd, hdist⟩ := mem_candidatesOf.mp (pickBest_mem h)
  refine ⟨ha, hs, hd, hdist, ?_⟩
  intro a hma hsa hda
  exact pickBest_min h { artwork := a, distance := dist e a.embedding }
    (mem_candidatesOf.mpr ⟨hma, hsa, hda, rfl⟩)

theorem matchEngine_some_of_candidate {dist : List ℚ → List ℚ → ℚ}
    {e : List ℚ} {scope : List Nat} {arts : List ArtworkRow}
    {a : ArtworkRow} (ha : a ∈ arts) (hs : inScope scope a = true)
    (hd : dist e a.embedding < threshold) :
    ∃ c, matchEngine dist e scope arts = some c ∧
      c.distance ≤ dist e a.embedding := by
  cases hm : matchEngine dist e scope arts with
  | none => exact absurd hd ((matchEngine_none_iff dist e scope arts).mp hm a ha hs)
  | some c =>
    exact ⟨c, rfl, (matchEngine_some_spec hm).2.2.2.2 a ha hs hd⟩

theorem matchEngine_append_single {dist : List ℚ → List ℚ → ℚ} {e : List ℚ}
    {scope : List Nat} {arts : List ArtworkRow} {row : ArtworkRow}
    (h : matchEngine dist e scope arts = none)
    (hs : inScope scope row = true)
    (hd : dist e row.embedding < threshold) :
    matchEngine dist e scope (arts ++ [row]) =
      some { artwork := row, distance := dist e row.embedding } := by
  unfold matchEngine at *
  rw [pickBest_eq_none_iff] at h
  rw [candidatesOf_append, h, List.nil_append]
  unfold candidatesOf
  simp [List.filter, hs, hd, pickBest]

/-! ## Behaviour of the Coordinator and the pipeline -/

theorem insertArtwork_ok_of {db : DB} {a : ArtworkRow}
    (h1 : checkSourceValues a.source = true)
    (h2 : checkConfidenceRange a.confidence_score = true)
    (h3 : museumFkOk db a.museum_id = true) :
    insertArtwork db a = Except.ok { db with artworks := db.artworks ++ [a] } :=
  (insertArtwork_ok_iff db a _).mpr ⟨h1, h2, h3, rfl⟩

theorem getOrCreate_spec {dist : List ℚ → List ℚ → ℚ} {db : DB} {e : List ℚ}
    {ana : Analysis} {scope : List Nat} {newId : Nat} {db2 : DB}
    {a : ArtworkRow} {created : Bool}
    (h : getOrCreate dist db e ana scope newId = Except.ok (db2, a, created)) :
    (created = false ∧ db2 = db ∧
      ∃ c, matchEngine dist e scope db.artworks = some c ∧ c.artwork = a) ∨
    (created = true ∧ matchEngine dist e scope db.artworks = none ∧
      a = mkAutoRow e ana newId ∧
      db2 = { db with artworks := db.artworks ++ [a] } ∧
      checkConfidenceRange (some ana.confidence) = true) := by
  unfold getOrCreate at h
  cases hm : matchEngine dist e scope db.artworks with
  | some c =>
    rw [hm] at h
    injection h with h
    injection h with hdb h
    injection h with ha hcreated
    exact Or.inl ⟨hcreated.symm, hdb.symm, c, rfl, ha⟩
  | none =>
    rw [hm] at h
    cases hins : insertArtwork db (mkAutoRow e ana newId) with
    | error msg => rw [hins] at h; cases h
    | ok db3 =>
      rw [hins] at h
      injection h with h
      injection h with hdb h
      injection h with ha hcreated
      obtain ⟨hc1, hc2, _, hdb3⟩ := (insertArtwork_ok_iff db _ db3).mp hins
      refine Or.inr ⟨hcreated.symm, rfl, ha.symm, ?_, hc2⟩
      rw [← hdb, hdb3, ha]

theorem getOrCreate_artworks {dist : List ℚ → List ℚ → ℚ} {db : DB}
    {e : List ℚ} {ana : Analysis} {scope : List Nat} {newId : Nat} {db2 : DB}
    {a : ArtworkRow} {created : Bool}
    (h : getOrCreate dist db e ana scope newId = Except.ok (db2, a, created)) :
    db2.artworks = db.artworks ∨
      ∃ r : ArtworkRow, db2.artworks = db.artworks ++ [r] ∧
        r.is_verified = false ∧ r.source = "ai_generated" ∧
        checkConfidenceRange r.confidence_score = true := by
  rcases getOrCreate_spec h with ⟨_, hdb, _⟩ | ⟨_, _, ha, hdb, hc⟩
  · exact Or.inl (by rw [hdb])
  · refine Or.inr ⟨a, by rw [hdb], by rw [ha]; rfl, by rw [ha]; rfl, ?_⟩
    rw [ha]
    exact hc

theorem submitScan_artworks {dist : List ℚ → List ℚ → ℚ} {db : DB}
    {e : List ℚ} {scope : List Nat} {ana : Analysis} {userId : String}
    {scanId newId : Nat} {db2 : DB} {out : ScanOutcome}
    (h : submitScan dist db e scope ana userId scanId newId =
      Except.ok (db2, out)) :
    db2.artworks = db.artworks ∨
      ∃ r : ArtworkRow, db2.artworks = db.artworks ++ [r] ∧
        r.is_verified = false ∧ r.source = "ai_generated" ∧
        checkConfidenceRange r.confidence_score = true := by
  unfold submitScan at h
  cases hm : matchEngine dist e scope db.artworks with
  | some c =>
    rw [hm] at h
    simp at h
    exact Or.inl (by rw [← h.1]; rfl)
  | none =>
    rw [hm] at h
    by_cases hart : ana.isArtwork = true
    · rw [if_pos hart] at h
      cases hg : getOrCreate dist db e ana scope newId with
      | error msg => rw [hg] at h; cases h
      | ok res =>
        obtain ⟨db1, a, created⟩ := res
        rw [hg] at h
        simp at h
        rcases getOrCreate_artworks hg with h1 | ⟨r, h2⟩
        · exact Or.inl (by rw [← h.1]; exact h1)
        · exact Or.inr ⟨r, by rw [← h.1]; exact h2.1, h2.2.1, h2.2.2.1, h2.2.2.2⟩
    · rw [if_neg hart] at h
      simp at h
      exact Or.inl (by rw [← h.1]; rfl)

/-! ## Invariant preservation over application steps -/

theorem all_append_single {P : ArtworkRow → Bool} {l : List ArtworkRow}
    {a : ArtworkRow} (h : l.all P = true) (ha : P a = true) :
    (l ++ [a]).all P = true := by
  rw [List.all_append]
  simp [h, ha]

theorem all_filter_of_all {P : ArtworkRow → Bool} {l : List ArtworkRow}
    (q : ArtworkRow → Bool) (h : l.all P = true) :
    (l.filter q).all P = true := by
  rw [List.all_eq_true] at h ⊢
  intro a ha
  exact h a (List.mem_filter.mp ha).1

theorem moderationEditRow_fields (aid : Nat) (t : String) (ar : Option String)
    (d : String) (a : ArtworkRow) :
    (moderationEditRow aid t ar d a).is_verified = a.is_verified ∧
      (moderationEditRow aid t ar d a).source = a.source ∧
      (moderationEditRow aid t ar d a).confidence_score = a.confidence_score := by
  unfold moderationEditRow
  by_cases h : a.id = aid
  · rw [if_pos h]
    exact ⟨rfl, rfl, rfl⟩
  · rw [if_neg h]
    exact ⟨rfl, rfl, rfl⟩

theorem appStep_preserves_conf {dist : List ℚ → List ℚ → ℚ} {db db2 : DB}
    (hs : AppStep dist db db2) (hinv : confidenceInRange db = true) :
    confidenceInRange db2 = true := by
  unfold confidenceInRange at *
  cases hs with
  | adminCreate row db2 hsrc hins =>
    obtain ⟨_, hc, _, hdb⟩ := (insertArtwork_ok_iff _ row db2).mp hins
    rw [hdb]
    exact all_append_single hinv hc
  | unverifiedCreate row db2 hver hins =>
    obtain ⟨_, hc, _, hdb⟩ := (insertArtwork_ok_iff _ row db2).mp hins
    rw [hdb]
    exact all_append_single hinv hc
  | coordinatorCreate e ana scope newId db2 a c h =>
    rcases getOrCreate_artworks h with h1 | ⟨r, h2, _, _, hc⟩
    · rw [h1]; exact hinv
    · rw [h2]; exact all_append_single hinv hc
  | scanRequest e scope ana userId scanId newId db2 out h =>
    rcases submitScan_artworks h with h1 | ⟨r, h2, _, _, hc⟩
    · rw [h1]; exact hinv
    · rw [h2]; exact all_append_single hinv hc
  | scanLedger scanId userId aid => exact hinv
  | moderationEdit aid t ar d =>
    rw [List.all_eq_true] at hinv ⊢
    intro a ha
    obtain ⟨b, hb, hba⟩ := List.mem_map.mp ha
    have hfields := moderationEditRow_fields aid t ar d b
    unfold moderationEditRow at hfields
    rw [← hba]
    show checkConfidenceRange
      (if b.id = aid then
        { b with title := t, artist := ar, description_json := d }
      else b).confidence_score = true
    rw [hfields.2.2]
    exact hinv b hb
  | moderationDelete aid => exact all_filter_of_all _ hinv
  | adminDeleteMuseum mid => exact all_filter_of_all _ hinv
  | adminCreateMuseum m => exact hinv

theorem appStep_preserves_ver {dist : List ℚ → List ℚ → ℚ} {db db2 : DB}
    (hs : AppStep dist db db2) (hinv : verifiedImpliesOfficial db = true) :
    verifiedImpliesOfficial db2 = true := by
  unfold verifiedImpliesOfficial at *
  cases hs with
  | adminCreate row db2 hsrc hins =>
    obtain ⟨_, _, _, hdb⟩ := (insertArtwork_ok_iff _ row db2).mp hins
    rw [hdb]
    refine all_append_single hinv ?_
    have : verifiedSource row.source = true := by
      unfold verifiedSource
      rcases hsrc with h | h <;> simp [h]
    simp [this]
  | unverifiedCreate row db2 hver hins =>
    obtain ⟨_, _, _, hdb⟩ := (insertArtwork_ok_iff _ row db2).mp hins
    rw [hdb]
    refine all_append_single hinv ?_
    simp [hver]
  | coordinatorCreate e ana scope newId db2 a c h =>
    rcases getOrCreate_artworks h with h1 | ⟨r, h2, hv, _, _⟩
    · rw [h1]; exact hinv
    · rw [h2]; exact all_append_single hinv (by simp [hv])
  | scanRequest e scope ana userId scanId newId db2 out h =>
    rcases submitScan_artworks h with h1 | ⟨r, h2, hv, _, _⟩
    · rw [h1]; exact hinv
    · rw [h2]; exact all_append_single hinv (by simp [hv])
  | scanLedger scanId userId aid => exact hinv
  | moderationEdit aid t ar d =>
    rw [List.all_eq_true] at hinv ⊢
    intro a ha
    obtain ⟨b, hb, hba⟩ := List.mem_map.mp ha
    have hfields := moderationEditRow_fields aid t ar d b
    unfold moderationEditRow at hfields
    rw [← hba]
    show (!(if b.id = aid then
        { b with title := t, artist := ar, description_json := d }
      else b).is_verified ||
      verifiedSource (if b.id = aid then
        { b with title := t, artist := ar, description_json := d }
      else b).source) = true
    rw [hfields.1, hfields.2.1]
    exact hinv b hb
  | moderationDelete aid => exact all_filter_of_all _ hinv
  | adminDeleteMuseum mid => exact all_filter_of_all _ hinv
  | adminCreateMuseum m => exact hinv

/-! ## Concrete fixtures

Concrete instantiations of the external primitives and of database rows,
used to exhibit the claims on explicit inputs. -/

/-- A concrete stand-in for the external cosine-distance primitive:
absolute difference of the first coordinates. -/
def testDist (u v : List ℚ) : ℚ :=
  if u.headD 0 ≤ v.headD 0 then v.headD 0 - u.headD 0
  else u.headD 0 - v.headD 0

/-- An unaffiliated catalog row at embedding `[0]`. -/
def artA : ArtworkRow :=
  { id := 1, museum_id := none, title := "A", artist := none,
    description_json := "", image_url := none, embedding := [0],
    is_verified := false, source := "ai_generated", confidence_score := none }

/-- An unaffiliated catalog row at embedding `[1/20]`, closer to the probes
used below than `artA`. -/
def artB : ArtworkRow :=
  { id := 2, museum_id := none, title := "B", artist := none,
    description_json := "", image_url := none, embedding := [1/20],
    is_verified := false, source := "ai_generated", confidence_score := none }

/-- A museum-affiliated row: owned by museum 1 and by nobody else. -/
def artMuseumOnly : ArtworkRow :=
  { id := 3, museum_id := some 1, title := "M", artist := none,
    description_json := "", image_url := none, embedding := [0],
    is_verified := true, source := "museum_api", confidence_score := none }

/-- A museum with a 200 m geofence radius. -/
def met : MuseumRow :=
  { id := 1, name := "Met", longitude := 0, latitude := 0,
    geofence_radius_meters := 200 }

/-- A Dispatcher analysis that recognises an artwork with confidence 1/2. -/
def anaOk : Analysis :=
  { label := "New", description := "d", isArtwork := true, confidence := 1/2 }

/-- A Dispatcher analysis that reports the subject is not an artwork. -/
def anaNot : Analysis :=
  { label := "n", description := "d", isArtwork := false, confidence := 1/2 }

/-- A database holding just `artA`. -/
def dbA : DB := { museums := [], artworks := [artA], user_scans := [] }

/-! ## The claims -/

/-- C2 counterexample: a scan whose embedding is within 0.15 of artwork
`artA` (in scope) does not return `artA` when another in-scope artwork is
strictly closer — the engine returns the nearest candidate instead. -/
theorem matchEngine_not_always_A :
    testDist [1/25] artA.embedding < threshold ∧
    inScope [] artA = true ∧
    artA ∈ [artA, artB] ∧
    matchEngine testDist [1/25] [] [artA, artB] =
      some { artwork := artB, distance := 1/100 } ∧
    artB ≠ artA := by
  refine ⟨by norm_num [testDist, artA, threshold], rfl, by simp, ?_, by simp [artA, artB]⟩
  norm_num [matchEngine, candidatesOf, pickBest, beats, inScope, testDist,
    artA, artB, threshold, verifiedSource, List.filterMap_cons, List.filter_cons]

/-- C2 (amended): the Vector Match Engine accepts a candidate only when its
cosine distance is strictly below the 0.15 threshold; when some in-scope
artwork `A` lies within the threshold the engine returns a candidate whose
distance is at most that of `A` (hence `A` itself whenever `A` is nearest),
and the pipeline then records only a ScanEvent — no artwork row is created;
when no in-scope artwork is under the threshold the result is NoMatch. -/
theorem matchEngine_contract (dist : List ℚ → List ℚ → ℚ) (e : List ℚ)
    (scope : List Nat) (arts : List ArtworkRow) :
    (∀ c, matchEngine dist e scope arts = some c →
      c.artwork ∈ arts ∧ inScope scope c.artwork = true ∧
      dist e c.artwork.embedding < threshold ∧
      c.distance = dist e c.artwork.embedding) ∧
    (∀ A ∈ arts, inScope scope A = true → dist e A.embedding < threshold →
      ∃ c, matchEngine dist e scope arts = some c ∧
        c.distance ≤ dist e A.embedding) ∧
    ((∀ a ∈ arts, inScope scope a = true → ¬(dist e a.embedding < threshold)) →
      matchEngine dist e scope arts = none) ∧
    (∀ A ∈ arts, inScope scope A = true → dist e A.embedding < threshold →
      (∀ b ∈ arts, inScope scope b = true → b ≠ A →
        dist e A.embedding < dist e b.embedding) →
      ∃ c, matchEngine dist e scope arts = some c ∧ c.artwork = A) ∧
    (∀ db ana userId scanId newId c, db.artworks = arts →
      matchEngine dist e scope arts = some c →
      ∃ db2, submitScan dist db e scope ana userId scanId newId =
          Except.ok (db2,
            { status := ScanStatus.match_found,
              artwork := some c.artwork, cataloged := false }) ∧
        db2.artworks = db.artworks) := by
  refine ⟨?_, ?_, ?_, ?_, ?_⟩
  · intro c h
    obtain ⟨h1, h2, h3, h4, _⟩ := matchEngine_some_spec h
    exact ⟨h1, h2, h3, h4⟩
  · intro A hA hs hd
    exact matchEngine_some_of_candidate hA hs hd
  · intro h
    exact (matchEngine_none_iff dist e scope arts).mpr h
  · intro A hA hs hd hmin
    obtain ⟨c, hc, hle⟩ := matchEngine_some_of_candidate hA hs hd
    refine ⟨c, hc, ?_⟩
    obtain ⟨hca, hcs, _, hcd, _⟩ := matchEngine_some_spec hc
    by_contra hne
    have hlt := hmin c.artwork hca hcs hne
    rw [hcd] at hle
    exact absurd (lt_of_lt_of_le hlt hle) (lt_irrefl _)
  · intro db ana userId scanId newId c harts hm
    refine ⟨recordScan db scanId userId (some c.artwork.id), ?_, rfl⟩
    unfold submitScan
    rw [harts, hm]

/-- C1: when two first-time scans race — both embeddings match no stored
artwork, and the two embeddings are within the 0.15 threshold of each
other — the serialized check-then-insert sections create exactly one new
Artwork row: the first worker creates it and the second worker's re-query
resolves to the very same row as a matcher. -/
theorem race_creates_one_row (dist : List ℚ → List ℚ → ℚ) (db : DB)
    (e1 e2 : List ℚ) (ana1 ana2 : Analysis) (scope : List Nat) (id1 id2 : Nat)
    (h1 : matchEngine dist e1 scope db.artworks = none)
    (h2 : matchEngine dist e2 scope db.artworks = none)
    (hd : dist e2 e1 < threshold)
    (hc0 : 0 ≤ ana1.confidence) (hc1 : ana1.confidence ≤ 1) :
    ∃ row : ArtworkRow,
      raceFirstScans dist db e1 e2 ana1 ana2 scope id1 id2 =
        Except.ok ({ db with artworks := db.artworks ++ [row] },
          (row, true), (row, false)) ∧
      row.id = id1 ∧ row.embedding = e1 ∧ row.is_verified = false ∧
      row.source = "ai_generated" ∧
      row.confidence_score = some ana1.confidence := by
  refine ⟨mkAutoRow e1 ana1 id1, ?_, rfl, rfl, rfl, rfl, rfl⟩
  have hins : insertArtwork db (mkAutoRow e1 ana1 id1) =
      Except.ok { db with artworks := db.artworks ++ [mkAutoRow e1 ana1 id1] } := by
    refine insertArtwork_ok_of rfl ?_ rfl
    show checkConfidenceRange (some ana1.confidence) = true
    unfold checkConfidenceRange
    simp [hc0, hc1]
  have hg1 : getOrCreate dist db e1 ana1 scope id1 =
      Except.ok ({ db with artworks := db.artworks ++ [mkAutoRow e1 ana1 id1] },
        mkAutoRow e1 ana1 id1, true) := by
    unfold getOrCreate
    rw [h1, hins]
  have hm2 : matchEngine dist e2 scope
      (db.artworks ++ [mkAutoRow e1 ana1 id1]) =
      some { artwork := mkAutoRow e1 ana1 id1, distance := dist e2 e1 } :=
    matchEngine_append_single h2 rfl hd
  have hg2 : getOrCreate dist
      { db with artworks := db.artworks ++ [mkAutoRow e1 ana1 id1] }
      e2 ana2 scope id2 =
      Except.ok ({ db with artworks := db.artworks ++ [mkAutoRow e1 ana1 id1] },
        mkAutoRow e1 ana1 id1, false) := by
    unfold getOrCreate
    rw [show ({ db with artworks := db.artworks ++ [mkAutoRow e1 ana1 id1] } :
      DB).artworks = db.artworks ++ [mkAutoRow e1 ana1 id1] from rfl, hm2]
  simp only [raceFirstScans, hg1, hg2]

/-- C1 witness: the race run on the empty store with embeddings `[0]` and
`[1/20]` (distance 1/20 < 0.15). -/
theorem race_creates_one_row_witness :
    ∃ row : ArtworkRow,
      raceFirstScans testDist dbInit [0] [1/20] anaOk anaOk [] 7 8 =
        Except.ok ({ dbInit with artworks := dbInit.artworks ++ [row] },
          (row, true), (row, false)) ∧
      row.id = 7 ∧ row.embedding = [0] ∧ row.is_verified = false ∧
      row.source = "ai_generated" ∧
      row.confidence_score = some anaOk.confidence :=
  race_creates_one_row testDist dbInit [0] [1/20] anaOk anaOk [] 7 8 rfl rfl
    (by norm_num [testDist, threshold]) (by norm_num [anaOk]) (by norm_num [anaOk])

/-- C3: when the match reports NoMatch and the generative analysis reports
the subject is not an artwork, the scan terminates in `not_art`: no Artwork
row is created, museums are untouched, and the Scan Ledger gains exactly
one row with a null artwork reference. -/
theorem notArt_no_catalog (dist : List ℚ → List ℚ → ℚ) (db : DB)
    (e : List ℚ) (scope : List Nat) (ana : Analysis) (userId : String)
    (scanId newId : Nat)
    (hm : matchEngine dist e scope db.artworks = none)
    (hna : ana.isArtwork = false) :
    ∃ db2, submitScan dist db e scope ana userId scanId newId =
        Except.ok (db2,
          { status := ScanStatus.not_art, artwork := none,
            cataloged := false }) ∧
      db2.artworks = db.artworks ∧ db2.museums = db.museums ∧
      db2.user_scans = db.user_scans ++
        [{ id := scanId, user_id := userId, artwork_id := none,
           image_url := none }] := by
  refine ⟨recordScan db scanId userId none, ?_, rfl, rfl, rfl⟩
  unfold submitScan
  rw [hm]
  simp [hna]

/-- C3 witness: a `not_art` analysis on the store holding `artA`, probed far
from every stored embedding. -/
theorem notArt_no_catalog_witness :
    ∃ db2, submitScan testDist dbA [1] [] anaNot "u" 5 6 =
        Except.ok (db2,
          { status := ScanStatus.not_art, artwork := none,
            cataloged := false }) ∧
      db2.artworks = dbA.artworks ∧ db2.museums = dbA.museums ∧
      db2.user_scans = dbA.user_scans ++
        [{ id := 5, user_id := "u", artwork_id := none, image_url := none }] :=
  notArt_no_catalog testDist dbA [1] [] anaNot "u" 5 6
    (by norm_num [matchEngine, candidatesOf, pickBest, inScope, testDist,
      dbA, artA, threshold, List.filterMap_cons, List.filter_cons]) rfl

/-- C4: the store refuses any artwork row whose confidence score falls
outside [0,1] (the `check_confidence_range` CHECK constraint), a successful
insert implies the score is in range, every application-level step preserves
the table-wide range invariant, and the range predicate means exactly
0 ≤ score ≤ 1. -/
theorem confidence_range_enforced :
    (∀ db a, checkConfidenceRange a.confidence_score = false →
      ∃ msg, insertArtwork db a = Except.error msg) ∧
    (∀ db a db2, insertArtwork db a = Except.ok db2 →
      checkConfidenceRange a.confidence_score = true) ∧
    (∀ (dist : List ℚ → List ℚ → ℚ) (db db2 : DB), AppStep dist db db2 →
      confidenceInRange db = true → confidenceInRange db2 = true) ∧
    (∀ c : ℚ, checkConfidenceRange (some c) = true ↔ 0 ≤ c ∧ c ≤ 1) := by
  refine ⟨?_, ?_, ?_, ?_⟩
  · intro db a h
    exact insertArtwork_fails_of_bad_confidence db a h
  · intro db a db2 h
    exact ((insertArtwork_ok_iff db a db2).mp h).2.1
  · intro dist db db2 hstep hinv
    exact appStep_preserves_conf hstep hinv
  · intro c
    unfold checkConfidenceRange
    simp

/-- C4 witness: a row with confidence 2 is rejected; recording a scan on the
empty store keeps the invariant. -/
theorem confidence_range_enforced_witness :
    (∃ msg, insertArtwork dbInit
      { artA with confidence_score := some 2 } = Except.error msg) ∧
    confidenceInRange (recordScan dbInit 1 "u" none) = true :=
  ⟨confidence_range_enforced.1 dbInit { artA with confidence_score := some 2 }
      (by norm_num [checkConfidenceRange, artA]),
    confidence_range_enforced.2.2.1 testDist dbInit _
      (AppStep.scanLedger dbInit 1 "u" none) rfl⟩

/-- C5: in every database state reachable from the empty database through
the application-level operations (admin creation, coordinator
auto-cataloging, scans, moderation edits and deletes), every artwork with
`is_verified = true` has source `museum_api` or `admin`. -/
theorem verified_implies_official_reachable (dist : List ℚ → List ℚ → ℚ)
    (db : DB) (h : Reachable dist db) :
    verifiedImpliesOfficial db = true := by
  induction h with
  | refl => rfl
  | tail hab hbc ih => exact appStep_preserves_ver hbc ih

/-- C5 witness: the initial (empty) database is reachable and satisfies the
invariant. -/
theorem verified_implies_official_reachable_witness :
    verifiedImpliesOfficial dbInit = true :=
  verified_implies_official_reachable testDist dbInit Relation.ReflTransGen.refl

/-- The great-circle distance fixture of the out-of-geofence scenario: the
user stands 250 m from every museum. -/
def gcFar : ℚ → ℚ → MuseumRow → ℚ := fun _ _ _ => 250

/-- C6: `candidateMuseums` returns exactly the museums whose great-circle
distance is at most their geofence radius; the empty scope makes matching
search exactly the unaffiliated pool; a matched museum-owned artwork always
has its museum inside the geofence; and in the concrete scenario — museum
radius 200 m, user 250 m away — the scope is empty and the museum-only
artwork is not returned. -/
theorem candidateMuseums_contract (gcDist : ℚ → ℚ → MuseumRow → ℚ)
    (lat lon : ℚ) (museums : List MuseumRow) :
    (∀ mid, mid ∈ candidateMuseums gcDist lat lon museums ↔
      ∃ m ∈ museums, m.id = mid ∧
        gcDist lat lon m ≤ (m.geofence_radius_meters : ℚ)) ∧
    (∀ a : ArtworkRow, inScope [] a = true ↔ a.museum_id = none) ∧
    (∀ (dist : List ℚ → List ℚ → ℚ) (e : List ℚ) (arts : List ArtworkRow)
      (c : Candidate) (mid : Nat),
      matchEngine dist e (candidateMuseums gcDist lat lon museums) arts =
        some c →
      c.artwork.museum_id = some mid →
      ∃ m ∈ museums, m.id = mid ∧
        gcDist lat lon m ≤ (m.geofence_radius_meters : ℚ)) ∧
    (candidateMuseums gcFar 0 0 [met] = [] ∧
      matchEngine testDist [0] (candidateMuseums gcFar 0 0 [met])
        [artMuseumOnly] = none) := by
  have hmem : ∀ mid, mid ∈ candidateMuseums gcDist lat lon museums ↔
      ∃ m ∈ museums, m.id = mid ∧
        gcDist lat lon m ≤ (m.geofence_radius_meters : ℚ) := by
    intro mid
    unfold candidateMuseums
    simp [List.mem_map, List.mem_filter]
    constructor
    · rintro ⟨m, ⟨hm, hd⟩, hid⟩
      exact ⟨m, hm, hid, hd⟩
    · rintro ⟨m, hm, hid, hd⟩
      exact ⟨m, ⟨hm, hd⟩, hid⟩
  refine ⟨hmem, ?_, ?_, ?_, ?_⟩
  · intro a
    unfold inScope
    cases a.museum_id with
    | none => simp
    | some m => simp
  · intro dist e arts c mid hm hmid
    have hs := (matchEngine_some_spec hm).2.1
    unfold inScope at hs
    rw [hmid] at hs
    simp at hs
    exact (hmem mid).mp hs
  · norm_num [candidateMuseums, met, gcFar, List.filter_cons]
  · norm_num [matchEngine, candidatesOf, pickBest, inScope, candidateMuseums,
      met, gcFar, artMuseumOnly, List.filterMap_cons, List.filter_cons]

/-- C7: the result tier shown for a matched artwork is a pure function of
its `is_verified` flag: the verified badge exactly when the flag is
literally true, the community/AI badge otherwise; two artworks with the
same flag always get the same badge, and for a `match_found` status the
ScanScreen branches are decided by the flag alone. -/
theorem badge_pure_function_of_verified :
    (∀ a : FrontArtwork, resultCardBadge a = TrustBadge.officialMuseumData ↔
      a.is_verified = some true) ∧
    (∀ a a' : FrontArtwork, a.is_verified = a'.is_verified →
      resultCardBadge a = resultCardBadge a') ∧
    (∀ a : FrontArtwork,
      scanScreenShowsVerifiedBadge FrontStatus.match_found a =
        resultCardIsVerified a) ∧
    (∀ a : FrontArtwork,
      scanScreenShowsCommunityBadge FrontStatus.match_found a =
        !(resultCardIsVerified a)) := by
  refine ⟨?_, ?_, ?_, ?_⟩
  · intro a
    unfold resultCardBadge resultCardIsVerified
    cases hv : a.is_verified with
    | none => simp
    | some b => cases b <;> simp
  · intro a a' h
    unfold resultCardBadge resultCardIsVerified
    rw [h]
  · intro a
    unfold scanScreenShowsVerifiedBadge resultCardIsVerified
    simp
  · intro a
    unfold scanScreenShowsCommunityBadge resultCardIsVerified
    simp

/-- C7 witness: two artworks differing in every field except the flag get
the same badge, and the flag values map to the expected badges. -/
theorem badge_pure_function_of_verified_witness :
    resultCardBadge
        { id := 1, title := "A", artist := "x", image_url := none,
          is_verified := some true, source := some "museum_api",
          confidence_score := none } =
      resultCardBadge
        { id := 2, title := "B", artist := "y", image_url := none,
          is_verified := some true, source := some "community",
          confidence_score := none } :=
  badge_pure_function_of_verified.2.1
    { id := 1, title := "A", artist := "x", image_url := none,
      is_verified := some true, source := some "museum_api",
      confidence_score := none }
    { id := 2, title := "B", artist := "y", image_url := none,
      is_verified := some true, source := some "community",
      confidence_score := none } rfl

/-- C8: the store rejects any source value outside the four-value set
(`check_source_values`), a successful insert implies membership in that
set, omitted columns default to `is_verified = false` and
`source = 'ai_generated'`, and every row the Coordinator creates is
unverified `ai_generated` carrying the Dispatcher's confidence. -/
theorem source_values_enforced :
    (∀ db a, checkSourceValues a.source = false →
      insertArtwork db a = Except.error "check_source_values") ∧
    (∀ db a db2, insertArtwork db a = Except.ok db2 →
      a.source = "museum_api" ∨ a.source = "ai_generated" ∨
        a.source = "admin" ∨ a.source = "community") ∧
    applyColumnDefaults none none = (false, "ai_generated") ∧
    (∀ (dist : List ℚ → List ℚ → ℚ) (db : DB) (e : List ℚ) (ana : Analysis)
      (scope : List Nat) (newId : Nat) (db2 : DB) (a : ArtworkRow),
      getOrCreate dist db e ana scope newId = Except.ok (db2, a, true) →
      a.source = "ai_generated" ∧ a.is_verified = false ∧
        a.confidence_score = some ana.confidence) := by
  refine ⟨?_, ?_, rfl, ?_⟩
  · intro db a h
    exact insertArtwork_fails_of_bad_source db a h
  · intro db a db2 h
    have hsv := ((insertArtwork_ok_iff db a db2).mp h).1
    unfold checkSourceValues at hsv
    simpa [or_assoc] using hsv
  · intro dist db e ana scope newId db2 a h
    rcases getOrCreate_spec h with ⟨hfalse, _, _⟩ | ⟨_, _, ha, _, _⟩
    · cases hfalse
    · rw [ha]
      exact ⟨rfl, rfl, rfl⟩

/-- C8 witness: inserting a row with source `"wikipedia"` fails with the
check-constraint violation. -/
theorem source_values_enforced_witness :
    insertArtwork dbInit { artA with source := "wikipedia" } =
      Except.error "check_source_values" :=
  source_values_enforced.1 dbInit { artA with source := "wikipedia" }
    (by simp [checkSourceValues, artA])

/-- C9: deleting a museum removes its row and cascades to exactly the
artworks referencing it (null-museum artworks survive) while the scan
ledger keeps its length; deleting an artwork removes only that row, keeps
every ledger row (same length), nulls the `artwork_id` of the rows that
referenced it, and leaves the other ledger rows unchanged. -/
theorem cascade_and_set_null (db : DB) (mid aid : Nat) :
    (∀ m ∈ (deleteMuseum db mid).museums, m.id ≠ mid) ∧
    (∀ a ∈ (deleteMuseum db mid).artworks, a.museum_id ≠ some mid) ∧
    (∀ a ∈ db.artworks, a.museum_id ≠ some mid →
      a ∈ (deleteMuseum db mid).artworks) ∧
    ((deleteMuseum db mid).user_scans.length = db.user_scans.length) ∧
    (∀ a ∈ (deleteArtwork db aid).artworks, a.id ≠ aid) ∧
    (∀ a ∈ db.artworks, a.id ≠ aid → a ∈ (deleteArtwork db aid).artworks) ∧
    ((deleteArtwork db aid).user_scans.length = db.user_scans.length) ∧
    (∀ s ∈ db.user_scans, s.artwork_id = some aid →
      { s with artwork_id := none } ∈ (deleteArtwork db aid).user_scans) ∧
    (∀ s ∈ db.user_scans, s.artwork_id ≠ some aid →
      s ∈ (deleteArtwork db aid).user_scans) := by
  refine ⟨?_, ?_, ?_, ?_, ?_, ?_, ?_, ?_, ?_⟩
  · intro m hm
    exact of_decide_eq_true (List.mem_filter.mp hm).2
  · intro a ha
    exact of_decide_eq_true (List.mem_filter.mp ha).2
  · intro a ha hne
    exact List.mem_filter.mpr ⟨ha, decide_eq_true hne⟩
  · exact List.length_map _ _
  · intro a ha
    exact of_decide_eq_true (List.mem_filter.mp ha).2
  · intro a ha hne
    exact List.mem_filter.mpr ⟨ha, decide_eq_true hne⟩
  · exact List.length_map _ _
  · intro s hs heq
    refine List.mem_map.mpr ⟨s, hs, ?_⟩
    show (if s.artwork_id = some aid then
        { s with artwork_id := none } else s) = { s with artwork_id := none }
    rw [if_pos heq]
  · intro s hs hne
    refine List.mem_map.mpr ⟨s, hs, ?_⟩
    show (if s.artwork_id = some aid then
        { s with artwork_id := none } else s) = s
    rw [if_neg hne]

/-- C10: the ResultCard treats an absent `is_verified` as unverified, never
renders the Report Issue button on a verified artwork, always renders it on
an unverified artwork when a handler is supplied, and — composed with the
ScanScreen, which supplies the handler exactly for unverified artworks —
shows the button exactly on the unverified ones. -/
theorem report_button_iff_unverified :
    (∀ a : FrontArtwork, a.is_verified = none →
      resultCardIsVerified a = false) ∧
    (∀ (a : FrontArtwork) (h : Bool), resultCardIsVerified a = true →
      resultCardShowsReport a h = false) ∧
    (∀ a : FrontArtwork, resultCardIsVerified a = false →
      resultCardShowsReport a true = true) ∧
    (∀ a : FrontArtwork,
      resultCardShowsReport a (scanScreenPassesHandler a) =
        !(resultCardIsVerified a)) := by
  refine ⟨?_, ?_, ?_, ?_⟩
  · intro a h
    unfold resultCardIsVerified
    rw [h]
    rfl
  · intro a h hv
    unfold resultCardShowsReport
    rw [hv]
    rfl
  · intro a hv
    unfold resultCardShowsReport
    rw [hv]
    rfl
  · intro a
    unfold resultCardShowsReport scanScreenPassesHandler resultCardIsVerified
    cases a.is_verified.getD false <;> rfl

/-- C10 witness: an artwork with no `is_verified` field counts as
unverified and gets the report button when a handler is present. -/
theorem report_button_iff_unverified_witness :
    resultCardIsVerified
      { id := 1, title := "A", artist := "x", image_url := none,
        is_verified := none, source := none, confidence_score := none } =
      false :=
  report_button_iff_unverified.1
    { id := 1, title := "A", artist := "x", image_url := none,
      is_verified := none, source := none, confidence_score := none } rfl

end MuseumScanner
